import Mathlib

/-!
Verification of the vine-flow room-booking conflict/approval workflow.

The definitions below embed, from the repository source:
  * the `room_bookings` store with its `no_overlapping_bookings` exclusion
    constraint (`EXCLUDE USING gist (room_id WITH =, tsrange(start_time,
    end_time, "[]") WITH &&)`) and the `valid_booking_time_range` check
    (`start_time < end_time`) from the migration file;
  * the row-level security update policies from
    `supabase/migrations/20250101000002_add_booking_visibility_policies.sql`;
  * `checkBookingAvailability` and `getConflictingBookings` from
    `src/lib/booking-utils.ts`;
  * the submission error translation of `handleSubmit`, the approval dialog
    logic (`handleApproveClick`, `handleApprove`, approve-button disabling),
    and `handleCancel` from `MyBookings.tsx`.

Timestamps are modelled as integers (the ISO strings of the source order the same
way); identifiers as naturals.
-/

namespace VineFlow

inductive BStatus where
  | pending
  | approved
  | rejected
  | cancelled
deriving DecidableEq, Repr

structure Booking where
  id : Nat
  title : String
  roomId : Nat
  userId : Nat
  startTime : Int
  endTime : Int
  status : BStatus
  approvedBy : Option Nat := none
  approvedAt : Option Int := none
  updatedAt : Int := 0
deriving DecidableEq, Repr

structure Room where
  id : Nat
  name : String
  capacity : Nat
  isActive : Bool
deriving DecidableEq, Repr

structure Profile where
  id : Nat
  firstName : String
  lastName : String
deriving DecidableEq, Repr

structure Database where
  bookings : List Booking
  rooms : List Room
  profiles : List Profile
deriving DecidableEq, Repr

/-- Overlap of the closed ranges `tsrange(s1,e1,"[]")` and `tsrange(s2,e2,"[]")`
as tested by the `&&` operator of the exclusion constraint. -/
def closedOverlap (s1 e1 s2 e2 : Int) : Bool :=
  decide (s1 ≤ e2) && decide (s2 ≤ e1)

/-- The half-open overlap test used by the client queries
(`.lt start_time endCand` and `.gt end_time startCand`). -/
def halfOpenOverlap (s1 e1 s2 e2 : Int) : Bool :=
  decide (s1 < e2) && decide (s2 < e1)

structure SqlError where
  code : String
  message : String
deriving DecidableEq, Repr

def exclusionViolation : SqlError :=
  { code := ("23P01")
    message := ("conflicting key value violates exclusion constraint no_overlapping_bookings") }

def checkViolation : SqlError :=
  { code := ("23514")
    message := ("new row violates check constraint valid_booking_time_range") }

def rlsViolation : SqlError :=
  { code := ("42501")
    message := ("new row violates row-level security policy for table room_bookings") }

/-- The `no_overlapping_bookings` exclusion constraint test for a new row `b`
against the existing rows: same `room_id`, intersecting inclusive ranges.
Note the constraint is NOT scoped to any status. -/
def violatesExclusion (b : Booking) (bs : List Booking) : Bool :=
  bs.any (fun o => o.roomId == b.roomId &&
    closedOverlap o.startTime o.endTime b.startTime b.endTime)

/-- Insert into `room_bookings`: the store checks `valid_booking_time_range`
and the `no_overlapping_bookings` exclusion constraint. -/
def insertBooking (b : Booking) (bs : List Booking) : Except SqlError (List Booking) :=
  if b.startTime < b.endTime then
    if violatesExclusion b bs then Except.error exclusionViolation
    else Except.ok (b :: bs)
  else Except.error checkViolation

/-- The store state satisfies the exclusion constraint. -/
def exclusionOK (bs : List Booking) : Prop :=
  ∀ a ∈ bs, ∀ b ∈ bs, a.id ≠ b.id → a.roomId = b.roomId →
    closedOverlap a.startTime a.endTime b.startTime b.endTime = false

/-- The invariant claimed by the spec: no two approved bookings on the same
room have overlapping half-open intervals. -/
def approvedNoOverlap (bs : List Booking) : Prop :=
  ∀ a ∈ bs, ∀ b ∈ bs, a.id ≠ b.id → a.roomId = b.roomId →
    a.status = BStatus.approved → b.status = BStatus.approved →
    halfOpenOverlap a.startTime a.endTime b.startTime b.endTime = false

/-- `handleApprove` in `TaskBoardEnhanced.tsx`:
`.update(\x7b status: "approved" \x7d).eq("id", selectedBooking.id)` —
only the status column is written. -/
def applyApproveUpdate (bs : List Booking) (bookingId : Nat) : List Booking :=
  bs.map (fun b => if b.id == bookingId then { b with status := BStatus.approved } else b)

/-- `handleReject`: `.update(\x7b status: "rejected" \x7d).eq("id", bookingId)`. -/
def applyRejectUpdate (bs : List Booking) (bookingId : Nat) : List Booking :=
  bs.map (fun b => if b.id == bookingId then { b with status := BStatus.rejected } else b)

inductive Role where
  | staff
  | leader
  | admin
deriving DecidableEq, Repr

def hasRole (roles : List (Nat × Role)) (u : Nat) (r : Role) : Bool :=
  roles.any (fun p => p.1 == u && p.2 == r)

/-- USING clause of the permissive UPDATE policies on `room_bookings`
("Users can update own pending bookings" / "Leaders and admins can update
all bookings"). -/
def canUpdateRow (roles : List (Nat × Role)) (caller : Nat) (b : Booking) : Bool :=
  (caller == b.userId && b.status == BStatus.pending) ||
  hasRole roles caller Role.leader || hasRole roles caller Role.admin

/-- WITH CHECK clause applied to the updated row (the leaders/admins policy
has no explicit WITH CHECK, so its USING expression is reused). -/
def passesUpdateCheck (roles : List (Nat × Role)) (caller : Nat) (nb : Booking) : Bool :=
  (caller == nb.userId && nb.status == BStatus.pending) ||
  hasRole roles caller Role.leader || hasRole roles caller Role.admin

/-- A row-level-secured UPDATE: rows failing every USING clause are silently
skipped; a reachable row whose updated image fails every WITH CHECK clause
makes the whole statement error. -/
def rlsUpdate (roles : List (Nat × Role)) (caller : Nat) (pred : Booking → Bool)
    (upd : Booking → Booking) (bs : List Booking) : Except SqlError (List Booking) :=
  if bs.any (fun b => pred b && canUpdateRow roles caller b &&
      !(passesUpdateCheck roles caller (upd b))) then
    Except.error rlsViolation
  else
    Except.ok (bs.map (fun b => if pred b && canUpdateRow roles caller b then upd b else b))

/-- `handleCancel` in `MyBookings.tsx`:
`.update(\x7b status: "cancelled", updated_at: now \x7d).eq("id", bookingId)`. -/
def handleCancel (roles : List (Nat × Role)) (caller : Nat) (now : Int)
    (bookingId : Nat) (bs : List Booking) : Except SqlError (List Booking) :=
  rlsUpdate roles caller (fun b => b.id == bookingId)
    (fun b => { b with status := BStatus.cancelled, updatedAt := now }) bs

/-- `MyBookings.tsx` shows the cancel button iff
`booking.status !== "cancelled" && !isPast(new Date(booking.end_time))`. -/
def showCancelButton (b : Booking) (ended : Bool) : Bool :=
  b.status != BStatus.cancelled && !ended

structure ConflictingBooking where
  id : Nat
  title : String
  room_name : String
  start_time : Int
  end_time : Int
  user_name : String
deriving DecidableEq, Repr

def lookupRoom (db : Database) (rid : Nat) : Option Room :=
  db.rooms.find? (fun r => r.id == rid)

def lookupProfile (db : Database) (uid : Nat) : Option Profile :=
  db.profiles.find? (fun p => p.id == uid)

/-- JavaScript `String.prototype.trim`: strip whitespace from both ends. -/
def jsTrim (s : String) : String :=
  String.mk (((s.data.dropWhile Char.isWhitespace).reverse.dropWhile Char.isWhitespace).reverse)

/-- `$\x7bfirst_name\x7d $\x7blast_name\x7d`.trim() || "Unknown User". -/
def displayName (p : Profile) : String :=
  let n := jsTrim (p.firstName ++ (" ") ++ p.lastName)
  if n == ("") then ("Unknown User") else n

/-- The `meeting_rooms!inner(name)` and `profiles!inner(first_name,last_name)`
joins: a booking row without a matching room or profile row is dropped. -/
def enrich (db : Database) (b : Booking) : Option ConflictingBooking :=
  match lookupRoom db b.roomId, lookupProfile db b.userId with
  | some r, some p =>
      some { id := b.id, title := b.title, room_name := r.name,
             start_time := b.startTime, end_time := b.endTime,
             user_name := displayName p }
  | _, _ => none

/-- Row filter of the `checkBookingAvailability` query: same room, status
approved, `start_time < endCand`, `end_time > startCand`. -/
def availPred (roomId : Nat) (startT endT : Int) (b : Booking) : Bool :=
  b.roomId == roomId && b.status == BStatus.approved &&
  decide (b.startTime < endT) && decide (b.endTime > startT)

/-- The rows produced by the pre-submission availability query, in store
order (the query has no order clause). -/
def availQuery (db : Database) (roomId : Nat) (startT endT : Int) : List ConflictingBooking :=
  db.bookings.filterMap (fun b => if availPred roomId startT endT b then enrich db b else none)

/-- `checkBookingAvailability` from `booking-utils.ts`: on query error it
logs and returns null; otherwise it returns the FIRST row or null. The
`excludeBookingId` parameter is accepted but never used in the query. -/
def checkBookingAvailability (db : Database) (queryFails : Bool) (roomId : Nat)
    (startT endT : Int) (excludeBookingId : Option Nat) : Option ConflictingBooking :=
  if queryFails then none
  else (availQuery db roomId startT endT).head?

/-- Row filter of the `getConflictingBookings` query: same room, id not the
excluded one, status approved or pending, half-open time overlap. -/
def conflictPred (roomId : Nat) (startT endT : Int) (excludeBookingId : Nat) (b : Booking) : Bool :=
  b.roomId == roomId && b.id != excludeBookingId &&
  (b.status == BStatus.approved || b.status == BStatus.pending) &&
  decide (b.startTime < endT) && decide (b.endTime > startT)

def conflictQuery (db : Database) (roomId : Nat) (startT endT : Int)
    (excludeBookingId : Nat) : List ConflictingBooking :=
  db.bookings.filterMap
    (fun b => if conflictPred roomId startT endT excludeBookingId b then enrich db b else none)

/-- `getConflictingBookings` from `booking-utils.ts`: on query error it logs
and returns `[]`; otherwise all rows, in store order (no order clause). -/
def getConflictingBookings (db : Database) (queryFails : Bool) (roomId : Nat)
    (startT endT : Int) (excludeBookingId : Nat) : List ConflictingBooking :=
  if queryFails then [] else conflictQuery db roomId startT endT excludeBookingId

/-- `validateForm` in the booking dialog blocks submission iff
`conflictingBooking` is set. -/
def submissionBlockedByConflict (c : Option ConflictingBooking) : Bool :=
  c.isSome

/-- `handleApproveClick` in `TaskBoardEnhanced.tsx`: fetch conflicts for the
booking being approved, excluding the booking itself. -/
def handleApproveClick (db : Database) (queryFails : Bool) (b : Booking) : List ConflictingBooking :=
  getConflictingBookings db queryFails b.roomId b.startTime b.endTime b.id

/-- The Approve button of the approval dialog:
`disabled=\x7bprocessingBookingId !== "" || conflicts.length > 0\x7d`. -/
def approveButtonDisabled (processingBookingId : String)
    (conflicts : List ConflictingBooking) : Bool :=
  processingBookingId != ("") || decide (conflicts.length > 0)

def charsStartWith : List Char → List Char → Bool
  | [], _ => true
  | _ :: _, [] => false
  | p :: ps, c :: cs => p == c && charsStartWith ps cs

def charsHaveInfix (pat : List Char) : List Char → Bool
  | [] => pat == []
  | c :: cs => charsStartWith pat (c :: cs) || charsHaveInfix pat cs

/-- JavaScript `String.prototype.includes` (for non-empty patterns). -/
def containsSubstr (s pat : String) : Bool :=
  charsHaveInfix pat.data s.data

/-- `errorMsg = error?.message || "Unknown error"` in `handleSubmit`. -/
def errorMsgOf (e : SqlError) : String :=
  if e.message == ("") then ("Unknown error") else e.message

/-- The conflict test of `handleSubmit`:
`errorMsg.includes("overlapping") || errorMsg.includes("conflict") || errorCode === "23P01"`. -/
def isConflictError (msg code : String) : Bool :=
  containsSubstr msg ("overlapping") || containsSubstr msg ("conflict") ||
  code == ("23P01")

/-- The toast (title, description) produced by `handleSubmit` when the store
insert fails. -/
def bookingErrorToast (e : SqlError) : String × String :=
  if isConflictError (errorMsgOf e) e.code then
    (("Booking Conflict"),
     ("This room is already booked for the selected time. Please choose a different time or room."))
  else
    (("Error"), errorMsgOf e)

/-! Concrete fixtures used by counterexamples and witnesses. -/

def roomX : Room := { id := 1, name := ("Room X"), capacity := 10, isActive := true }

def alice : Profile := { id := 1, firstName := ("Alice"), lastName := ("A") }

def bob : Profile := { id := 2, firstName := ("Bob"), lastName := ("B") }

/-- Approved booking R1 on room X for the half-open slot [10:00,11:00),
in minutes since midnight. -/
def bkApproved10to11 : Booking :=
  { id := 1, title := ("R1"), roomId := 1, userId := 1,
    startTime := 600, endTime := 660, status := BStatus.approved }

/-- Candidate [11:00,12:00) touching R1 only at the boundary instant. -/
def cand11to12 : Booking :=
  { id := 2, title := ("R2"), roomId := 1, userId := 2,
    startTime := 660, endTime := 720, status := BStatus.pending }

def dbC5 : Database := { bookings := [bkApproved10to11], rooms := [roomX], profiles := [alice, bob] }

/-- Pending booking on room X for [10:00,11:00). -/
def bkPending10to11 : Booking :=
  { id := 1, title := ("P1"), roomId := 1, userId := 1,
    startTime := 600, endTime := 660, status := BStatus.pending }

/-- A second pending booking whose interval exactly matches `bkPending10to11`. -/
def twinPending : Booking :=
  { id := 2, title := ("P2"), roomId := 1, userId := 2,
    startTime := 600, endTime := 660, status := BStatus.pending }

def dbC3 : Database :=
  { bookings := [bkPending10to11, twinPending], rooms := [roomX], profiles := [alice, bob] }

/-! Helper lemmas shared between claims. -/

theorem halfOpen_imp_closed {s1 e1 s2 e2 : Int}
    (h : halfOpenOverlap s1 e1 s2 e2 = true) : closedOverlap s1 e1 s2 e2 = true := by
  simp only [halfOpenOverlap, closedOverlap, Bool.and_eq_true, decide_eq_true_eq] at h ⊢
  omega

/-- Any insert whose closed range intersects the closed range of an existing
same-room booking errors out (with the exclusion violation, or already with the
time-range check violation). -/
theorem insert_closedOverlap_fails (b : Booking) (bs : List Booking)
    (h : ∃ o ∈ bs, o.roomId = b.roomId ∧
      closedOverlap o.startTime o.endTime b.startTime b.endTime = true) :
    ∃ er, insertBooking b bs = Except.error er := by
  obtain ⟨o, ho, hr, hc⟩ := h
  unfold insertBooking
  split
  · have hv : violatesExclusion b bs = true := by
      unfold violatesExclusion
      rw [List.any_eq_true]
      exact ⟨o, ho, by simp [hr, hc]⟩
    rw [hv]
    exact ⟨exclusionViolation, rfl⟩
  · exact ⟨checkViolation, rfl⟩

/-! ## C10 -/

/-- C10: `checkBookingAvailability` returns the same result for every value of
its `excludeBookingId` argument: the parameter is never used in the query, so
the pre-submission availability check never excludes any booking. -/
theorem checkBookingAvailability_ignores_exclude (db : Database) (qf : Bool)
    (roomId : Nat) (s e : Int) (x y : Option Nat) :
    checkBookingAvailability db qf roomId s e x =
      checkBookingAvailability db qf roomId s e y := rfl

/-! ## C2 -/

/-- C2: the availability checkers conflate query failure with the
no-conflicts outcome. A failed `checkBookingAvailability` query returns the
very value (`none`) returned on an empty database, a failed
`getConflictingBookings` query returns `[]` exactly as when zero conflicts
exist, and the submission gate treats the failed check as unblocked — the
workflow proceeds as if zero conflicts were found, contradicting the claim
that failure is distinguishable and aborts the workflow. -/
theorem availability_failure_indistinguishable (db : Database) (roomId : Nat)
    (s e : Int) (x : Option Nat) (ex : Nat) :
    checkBookingAvailability db true roomId s e x =
      checkBookingAvailability { bookings := [], rooms := [], profiles := [] } false roomId s e x ∧
    getConflictingBookings db true roomId s e ex =
      getConflictingBookings { bookings := [], rooms := [], profiles := [] } false roomId s e ex ∧
    submissionBlockedByConflict (checkBookingAvailability db true roomId s e x) = false :=
  ⟨rfl, rfl, rfl⟩

/-! ## C5 -/

/-- C5 counterexample: the claim says the store constraint applies the same
half-open boundary rule as the client check. But against approved booking
[10:00,11:00) on room X, the client check reports candidate [11:00,12:00) as
non-conflicting, while the exclusion constraint of the store (inclusive `"[]"`
range bounds) rejects inserting it: the boundary rules disagree. -/
theorem store_boundary_rule_differs_counterexample :
    checkBookingAvailability dbC5 false 1 660 720 none = none ∧
    insertBooking cand11to12 [bkApproved10to11] = Except.error exclusionViolation := by
  constructor
  · rfl
  · rfl

/-- C5 amended: the client availability check uses the half-open rule
`a_start < b_end AND b_start < a_end` — candidate [10:30,11:30) conflicts
with approved [10:00,11:00), candidate [11:00,12:00) does not — but the
authoritative store constraint uses inclusive range bounds
(`tsrange(start_time, end_time, "[]")`), so any candidate whose closed range
touches an existing same-room booking is rejected; half-open overlap still
always implies rejection. -/
theorem overlap_boundary_client_vs_store :
    (∀ a1 b1 a2 b2 : Int, halfOpenOverlap a1 b1 a2 b2 = true ↔ (a1 < b2 ∧ a2 < b1)) ∧
    (checkBookingAvailability dbC5 false 1 630 690 none).isSome = true ∧
    checkBookingAvailability dbC5 false 1 660 720 none = none ∧
    (∀ b bs, (∃ o ∈ bs, o.roomId = b.roomId ∧
        closedOverlap o.startTime o.endTime b.startTime b.endTime = true) →
      ∃ er, insertBooking b bs = Except.error er) := by
  refine ⟨?_, by decide, by decide, insert_closedOverlap_fails⟩
  intro a1 b1 a2 b2
  simp [halfOpenOverlap]

/-- C5 amended, witness: the store-rejection clause applied to the concrete
boundary-touching candidate. -/
theorem overlap_boundary_client_vs_store_witness :
    (∃ o ∈ [bkApproved10to11], o.roomId = cand11to12.roomId ∧
        closedOverlap o.startTime o.endTime cand11to12.startTime cand11to12.endTime = true) ∧
    (∃ er, insertBooking cand11to12 [bkApproved10to11] = Except.error er) :=
  ⟨by decide, overlap_boundary_client_vs_store.2.2.2 cand11to12 [bkApproved10to11] (by decide)⟩

/-! ## C3 -/

/-- C3 counterexample: the claim says an insert whose interval exactly
matches the interval of an existing pending booking succeeds at submission time
because only approved bookings block at the constraint level. In fact the
`no_overlapping_bookings` exclusion constraint is not scoped to any status:
inserting `twinPending` next to the pending `bkPending10to11` fails with the
exclusion-violation error. -/
theorem insert_matching_pending_rejected_counterexample :
    insertBooking twinPending [bkPending10to11] = Except.error exclusionViolation := rfl

/-- C3 amended: an insert whose interval exactly matches an existing
same-room booking interval fails at submission time whatever the status of
the existing booking, because the exclusion constraint covers bookings of every
status; the approval-time conflict check (statuses approved and pending)
does flag the pending twin. -/
theorem exact_match_blocked_any_status :
    (∀ b bs, (∃ o ∈ bs, o.roomId = b.roomId ∧ o.startTime = b.startTime ∧
        o.endTime = b.endTime ∧ o.startTime ≤ o.endTime) →
      ∃ er, insertBooking b bs = Except.error er) ∧
    getConflictingBookings dbC3 false 1 600 660 2 =
      [{ id := 1, title := ("P1"), room_name := ("Room X"),
         start_time := 600, end_time := 660, user_name := ("Alice A") }] := by
  constructor
  · rintro b bs ⟨o, ho, hr, hs, he, hle⟩
    refine insert_closedOverlap_fails b bs ⟨o, ho, hr, ?_⟩
    simp only [closedOverlap, Bool.and_eq_true, decide_eq_true_eq]
    omega
  · decide

/-- C3 amended, witness: the failing-insert clause applied to the concrete
pending twin. -/
theorem exact_match_blocked_any_status_witness :
    (∃ o ∈ [bkPending10to11], o.roomId = twinPending.roomId ∧
        o.startTime = twinPending.startTime ∧ o.endTime = twinPending.endTime ∧
        o.startTime ≤ o.endTime) ∧
    (∃ er, insertBooking twinPending [bkPending10to11] = Except.error er) :=
  ⟨by decide, exact_match_blocked_any_status.1 twinPending [bkPending10to11] (by decide)⟩

/-! ## C4 -/

/-- Approved booking stored ahead of an earlier-starting one: the queries
have no order clause, so results come back in store order. -/
def bkLate : Booking :=
  { id := 1, title := ("late"), roomId := 1, userId := 1,
    startTime := 30, endTime := 40, status := BStatus.approved }

def bkEarly : Booking :=
  { id := 2, title := ("early"), roomId := 1, userId := 2,
    startTime := 10, endTime := 20, status := BStatus.approved }

def dbC4 : Database := { bookings := [bkLate, bkEarly], rooms := [roomX], profiles := [alice, bob] }

/-- C4 counterexample: the claim says conflicts are returned ordered by
start_time, and that the availability checker returns the full list. With two
conflicting approved bookings stored later-first, `getConflictingBookings`
returns start times [30, 10] — not sorted — and `checkBookingAvailability`
returns only a single (the first) conflicting record although two exist. -/
theorem conflict_list_unsorted_counterexample :
    ((getConflictingBookings dbC4 false 1 0 100 999).map (fun c => c.start_time) = [30, 10]) ∧
    ¬ List.Chain' (fun a b : Int => a ≤ b)
        ((getConflictingBookings dbC4 false 1 0 100 999).map (fun c => c.start_time)) ∧
    (availQuery dbC4 1 0 100).length = 2 ∧
    checkBookingAvailability dbC4 false 1 0 100 none =
      some { id := 1, title := ("late"), room_name := ("Room X"),
             start_time := 30, end_time := 40, user_name := ("Alice A") } := by
  refine ⟨by decide, ?_, by decide, by decide⟩
  intro h
  rw [show (getConflictingBookings dbC4 false 1 0 100 999).map (fun c => c.start_time) =
      [(30 : Int), 10] from by decide] at h
  simp [List.chain'_cons] at h

/-- Membership in the approval-time conflict query. -/
theorem mem_conflictQuery {db : Database} {r : Nat} {s e : Int} {ex : Nat}
    {c : ConflictingBooking} :
    c ∈ conflictQuery db r s e ex ↔
      ∃ b ∈ db.bookings, conflictPred r s e ex b = true ∧ enrich db b = some c := by
  unfold conflictQuery
  rw [List.mem_filterMap]
  constructor
  · rintro ⟨b, hb, hsome⟩
    by_cases h : conflictPred r s e ex b = true
    · exact ⟨b, hb, h, by rwa [if_pos h] at hsome⟩
    · rw [if_neg h] at hsome; cases hsome
  · rintro ⟨b, hb, hp, henr⟩
    exact ⟨b, hb, by rw [if_pos hp]; exact henr⟩

/-- The Boolean row filter of the conflict query, spelled out. -/
theorem conflictPred_iff {r : Nat} {s e : Int} {ex : Nat} {b : Booking} :
    conflictPred r s e ex b = true ↔
      b.roomId = r ∧ b.id ≠ ex ∧
      (b.status = BStatus.approved ∨ b.status = BStatus.pending) ∧
      b.startTime < e ∧ s < b.endTime := by
  simp [conflictPred, and_assoc]

/-- C4 amended: `getConflictingBookings` returns exactly the conflicting
bookings — same room, excluded id removed, status approved or pending,
half-open overlap with the candidate — each enriched with room name and
requester display name via the inner joins, in store order (no ordering by
start_time is applied); when the query succeeds it returns the empty list
exactly when no (join-complete) conflict exists. `checkBookingAvailability`
returns only the first conflicting record, not the full list. -/
theorem conflict_results_characterized :
    (∀ db r s e ex c, c ∈ getConflictingBookings db false r s e ex ↔
      ∃ b ∈ db.bookings, b.roomId = r ∧ b.id ≠ ex ∧
        (b.status = BStatus.approved ∨ b.status = BStatus.pending) ∧
        b.startTime < e ∧ s < b.endTime ∧ enrich db b = some c) ∧
    (∀ db r s e ex, getConflictingBookings db false r s e ex = [] ↔
      ∀ b ∈ db.bookings, b.roomId = r → b.id ≠ ex →
        (b.status = BStatus.approved ∨ b.status = BStatus.pending) →
        b.startTime < e → s < b.endTime → enrich db b = none) ∧
    (∀ db r s e x, checkBookingAvailability db false r s e x = (availQuery db r s e).head?) := by
  have hmem : ∀ (db : Database) (r : Nat) (s e : Int) (ex : Nat) (c : ConflictingBooking),
      c ∈ getConflictingBookings db false r s e ex ↔
      ∃ b ∈ db.bookings, b.roomId = r ∧ b.id ≠ ex ∧
        (b.status = BStatus.approved ∨ b.status = BStatus.pending) ∧
        b.startTime < e ∧ s < b.endTime ∧ enrich db b = some c := by
    intro db r s e ex c
    rw [show getConflictingBookings db false r s e ex = conflictQuery db r s e ex from rfl,
      mem_conflictQuery]
    constructor
    · rintro ⟨b, hb, hp, henr⟩
      obtain ⟨h1, h2, h3, h4, h5⟩ := conflictPred_iff.mp hp
      exact ⟨b, hb, h1, h2, h3, h4, h5, henr⟩
    · rintro ⟨b, hb, h1, h2, h3, h4, h5, henr⟩
      exact ⟨b, hb, conflictPred_iff.mpr ⟨h1, h2, h3, h4, h5⟩, henr⟩
  refine ⟨hmem, ?_, fun db r s e x => rfl⟩
  intro db r s e ex
  rw [List.eq_nil_iff_forall_not_mem]
  constructor
  · intro h b hb h1 h2 h3 h4 h5
    cases henr : enrich db b with
    | none => rfl
    | some c =>
        exact absurd ((hmem db r s e ex c).mpr ⟨b, hb, h1, h2, h3, h4, h5, henr⟩) (h c)
  · intro h c hc
    obtain ⟨b, hb, h1, h2, h3, h4, h5, henr⟩ := (hmem db r s e ex c).mp hc
    rw [h b hb h1 h2 h3 h4 h5] at henr
    cases henr

/-- C4 amended, witness: the characterization evaluated on the concrete
two-conflict database. -/
theorem conflict_results_characterized_witness :
    ({ id := 2, title := ("early"), room_name := ("Room X"),
       start_time := 10, end_time := 20, user_name := ("Bob B") } ∈
        getConflictingBookings dbC4 false 1 0 100 999 ↔
      ∃ b ∈ dbC4.bookings, b.roomId = 1 ∧ b.id ≠ 999 ∧
        (b.status = BStatus.approved ∨ b.status = BStatus.pending) ∧
        b.startTime < 100 ∧ (0 : Int) < b.endTime ∧ enrich dbC4 b =
          some { id := 2, title := ("early"), room_name := ("Room X"),
                 start_time := 10, end_time := 20, user_name := ("Bob B") }) :=
  conflict_results_characterized.1 dbC4 1 0 100 999
    { id := 2, title := ("early"), room_name := ("Room X"),
      start_time := 10, end_time := 20, user_name := ("Bob B") }

/-! ## C1 -/

theorem closedOverlap_comm (s1 e1 s2 e2 : Int) :
    closedOverlap s1 e1 s2 e2 = closedOverlap s2 e2 s1 e1 := by
  simp only [closedOverlap]
  exact Bool.and_comm _ _

theorem violatesExclusion_false {b : Booking} {bs : List Booking}
    (hv : violatesExclusion b bs = false) :
    ∀ o ∈ bs, o.roomId = b.roomId →
      closedOverlap o.startTime o.endTime b.startTime b.endTime = false := by
  intro o ho hr
  have h := (List.any_eq_false.mp hv) o ho
  simpa [hr] using h

theorem exclusionOK_cons {b : Booking} {bs : List Booking}
    (h : exclusionOK bs) (hv : violatesExclusion b bs = false) :
    exclusionOK (b :: bs) := by
  intro a ha c hc hid hroom
  rcases List.mem_cons.mp ha with rfl | ha0
  · rcases List.mem_cons.mp hc with rfl | hc0
    · exact absurd rfl hid
    · rw [closedOverlap_comm]
      exact violatesExclusion_false hv c hc0 hroom.symm
  · rcases List.mem_cons.mp hc with rfl | hc0
    · exact violatesExclusion_false hv a ha0 hroom
    · exact h a ha0 c hc0 hid hroom

theorem exclusionOK_map {bs : List Booking} (f : Booking → Booking)
    (hf : ∀ x, (f x).id = x.id ∧ (f x).roomId = x.roomId ∧
      (f x).startTime = x.startTime ∧ (f x).endTime = x.endTime)
    (h : exclusionOK bs) : exclusionOK (bs.map f) := by
  intro a ha c hc hid hroom
  rcases List.mem_map.mp ha with ⟨a0, ha0, rfl⟩
  rcases List.mem_map.mp hc with ⟨c0, hc0, rfl⟩
  obtain ⟨hia, hra, hsa, hea⟩ := hf a0
  obtain ⟨hic, hrc, hsc, hec⟩ := hf c0
  rw [hsa, hea, hsc, hec]
  rw [hia, hic] at hid
  rw [hra, hrc] at hroom
  exact h a0 ha0 c0 hc0 hid hroom

/-- One mutation of the bookings store, as issued by the client code:
a submission insert, the approve/reject updates of the admin approval view,
or a cancellation through the row-level-secured update. -/
inductive BookingStep : List Booking → List Booking → Prop where
  | insert (b : Booking) (bs bs' : List Booking) :
      insertBooking b bs = Except.ok bs' → BookingStep bs bs'
  | approve (i : Nat) (bs : List Booking) : BookingStep bs (applyApproveUpdate bs i)
  | reject (i : Nat) (bs : List Booking) : BookingStep bs (applyRejectUpdate bs i)
  | cancel (roles : List (Nat × Role)) (caller : Nat) (now : Int) (i : Nat)
      (bs bs' : List Booking) :
      handleCancel roles caller now i bs = Except.ok bs' → BookingStep bs bs'

/-- Store states reachable from the empty store by client mutations. -/
def ReachableStore (bs : List Booking) : Prop :=
  Relation.ReflTransGen BookingStep [] bs

theorem insertBooking_ok {b : Booking} {bs bs' : List Booking}
    (h : insertBooking b bs = Except.ok bs') :
    bs' = b :: bs ∧ violatesExclusion b bs = false := by
  unfold insertBooking at h
  split at h
  · split at h
    · cases h
    · rename_i hv
      exact ⟨(Except.ok.inj h).symm, by simpa using hv⟩
  · cases h

theorem rlsUpdate_ok {roles : List (Nat × Role)} {caller : Nat} {pred : Booking → Bool}
    {upd : Booking → Booking} {bs bs' : List Booking}
    (h : rlsUpdate roles caller pred upd bs = Except.ok bs') :
    bs' = bs.map (fun b => if pred b && canUpdateRow roles caller b then upd b else b) := by
  unfold rlsUpdate at h
  split at h
  · cases h
  · exact (Except.ok.inj h).symm

theorem bookingStep_preserves {bs bs' : List Booking}
    (hstep : BookingStep bs bs') (h : exclusionOK bs) : exclusionOK bs' := by
  cases hstep with
  | insert b bs bs' hok =>
      obtain ⟨rfl, hv⟩ := insertBooking_ok hok
      exact exclusionOK_cons h hv
  | approve i bs =>
      refine exclusionOK_map _ (fun x => ?_) h
      by_cases hx : (x.id == i) = true <;> simp [applyApproveUpdate, hx]
  | reject i bs =>
      refine exclusionOK_map _ (fun x => ?_) h
      by_cases hx : (x.id == i) = true <;> simp [applyRejectUpdate, hx]
  | cancel roles caller now i bs bs' hok =>
      rw [rlsUpdate_ok hok]
      refine exclusionOK_map _ (fun x => ?_) h
      by_cases hx : ((x.id == i) && canUpdateRow roles caller x) = true <;> simp [hx]

theorem exclusionOK_of_reachable {bs : List Booking} (h : ReachableStore bs) :
    exclusionOK bs := by
  induction h with
  | refl => intro a ha; cases ha
  | tail _ hstep ih => exact bookingStep_preserves hstep ih

/-- C1: in every reachable state of the bookings store no two approved
bookings on the same room have overlapping half-open intervals, and any
insert that would create a same-room overlapping pair (in particular an
approved one) fails at the store: the exclusion constraint rejects it, so
the invariant is preserved by creation, approval, rejection and
cancellation alike. -/
theorem approved_bookings_never_overlap :
    (∀ bs, ReachableStore bs → approvedNoOverlap bs) ∧
    (∀ bs b, (∃ o ∈ bs, o.roomId = b.roomId ∧
        halfOpenOverlap o.startTime o.endTime b.startTime b.endTime = true) →
      ∃ er, insertBooking b bs = Except.error er) := by
  constructor
  · intro bs hreach a ha c hc hid hroom _ _
    have hex := exclusionOK_of_reachable hreach a ha c hc hid hroom
    cases hho : halfOpenOverlap a.startTime a.endTime c.startTime c.endTime
    · rfl
    · rw [halfOpen_imp_closed hho] at hex
      cases hex
  · rintro bs b ⟨o, ho, hr, hho⟩
    exact insert_closedOverlap_fails b bs ⟨o, ho, hr, halfOpen_imp_closed hho⟩

/-- Candidate [10:30,11:30), half-open-overlapping [10:00,11:00). -/
def cand1030to1130 : Booking :=
  { id := 3, title := ("R3"), roomId := 1, userId := 2,
    startTime := 630, endTime := 690, status := BStatus.pending }

/-- C1 witness: a two-step reachable store (insert then approve) satisfies
the invariant, and inserting an overlapping booking into a store holding an
approved booking fails. -/
theorem approved_bookings_never_overlap_witness :
    approvedNoOverlap (applyApproveUpdate [bkPending10to11] 1) ∧
    (∃ er, insertBooking cand1030to1130 [bkApproved10to11] = Except.error er) := by
  constructor
  · exact approved_bookings_never_overlap.1 _
      (Relation.ReflTransGen.tail
        (Relation.ReflTransGen.single (BookingStep.insert bkPending10to11 [] _ rfl))
        (BookingStep.approve 1 [bkPending10to11]))
  · exact approved_bookings_never_overlap.2 [bkApproved10to11] cand1030to1130
      ⟨bkApproved10to11, by decide, by decide, by decide⟩

/-! ## C6 -/

/-- C6: the pre-approval check fetches exactly the bookings with status
approved or pending on the same room, excluding the booking being approved,
whose half-open interval overlaps it (enriched through the joins); and when
that conflict set is non-empty the Approve button is disabled, so the store
update is not attempted and the set is what the dialog displays. -/
theorem pre_approval_conflicts_block_approve (db : Database) (b : Booking)
    (h : handleApproveClick db false b ≠ []) :
    approveButtonDisabled ("") (handleApproveClick db false b) = true ∧
    (∀ c, c ∈ handleApproveClick db false b ↔
      ∃ o ∈ db.bookings, o.roomId = b.roomId ∧ o.id ≠ b.id ∧
        (o.status = BStatus.approved ∨ o.status = BStatus.pending) ∧
        o.startTime < b.endTime ∧ b.startTime < o.endTime ∧ enrich db o = some c) := by
  constructor
  · have hpos : 0 < (handleApproveClick db false b).length := List.length_pos.mpr h
    simp [approveButtonDisabled, hpos]
  · intro c
    rw [show handleApproveClick db false b =
      conflictQuery db b.roomId b.startTime b.endTime b.id from rfl, mem_conflictQuery]
    constructor
    · rintro ⟨o, ho, hp, henr⟩
      obtain ⟨h1, h2, h3, h4, h5⟩ := conflictPred_iff.mp hp
      exact ⟨o, ho, h1, h2, h3, h4, h5, henr⟩
    · rintro ⟨o, ho, h1, h2, h3, h4, h5, henr⟩
      exact ⟨o, ho, conflictPred_iff.mpr ⟨h1, h2, h3, h4, h5⟩, henr⟩

/-- C6 witness: approving the pending twin booking surfaces the other
pending booking as a conflict and the Approve button is disabled. -/
theorem pre_approval_conflicts_block_approve_witness :
    handleApproveClick dbC3 false twinPending ≠ [] ∧
    approveButtonDisabled ("") (handleApproveClick dbC3 false twinPending) = true :=
  ⟨by decide, (pre_approval_conflicts_block_approve dbC3 twinPending (by decide)).1⟩

/-! ## C7 -/

def bkToApprove : Booking :=
  { id := 3, title := ("T"), roomId := 2, userId := 1,
    startTime := 0, endTime := 10, status := BStatus.pending }

/-- C7 counterexample: the claim says a successful approve sets the approver
to the caller and the approval timestamp to now. Approving booking 3 (say by
caller 7 at time 100) leaves both fields at `none`: the client update writes
only the status column. -/
theorem approve_leaves_approver_unset_counterexample :
    applyApproveUpdate [bkToApprove] 3 =
      [{ bkToApprove with status := BStatus.approved }] ∧
    ({ bkToApprove with status := BStatus.approved }).approvedBy = none ∧
    ({ bkToApprove with status := BStatus.approved }).approvedAt = none ∧
    ({ bkToApprove with status := BStatus.approved }).approvedBy ≠ some 7 := by
  decide

/-- C7 amended: a successful approve sets the status of the booking to approved
and changes nothing else: every other column (including approver and
approval timestamp) keeps its previous value, and bookings with other ids
are untouched. -/
theorem approve_sets_only_status (bs : List Booking) (i : Nat) :
    ((applyApproveUpdate bs i).map (fun b => (b.id, b.title, b.roomId, b.userId,
        b.startTime, b.endTime, b.approvedBy, b.approvedAt, b.updatedAt)) =
      bs.map (fun b => (b.id, b.title, b.roomId, b.userId,
        b.startTime, b.endTime, b.approvedBy, b.approvedAt, b.updatedAt))) ∧
    (∀ b ∈ applyApproveUpdate bs i, b.id = i → b.status = BStatus.approved) ∧
    (∀ b ∈ applyApproveUpdate bs i, b.id ≠ i → b ∈ bs) := by
  refine ⟨?_, ?_, ?_⟩
  · rw [applyApproveUpdate, List.map_map]
    apply List.map_congr_left
    intro x _
    by_cases hx : x.id = i <;> simp [hx]
  · intro b hb hbid
    rcases List.mem_map.mp hb with ⟨x, _, rfl⟩
    by_cases hx : x.id = i <;> simp_all
  · intro b hb hbid
    rcases List.mem_map.mp hb with ⟨x, hxmem, rfl⟩
    by_cases hx : x.id = i <;> simp_all

/-- C7 amended, witness: the amended statement evaluated on the concrete
one-booking store. -/
theorem approve_sets_only_status_witness :
    ((applyApproveUpdate [bkToApprove] 3).map (fun b => (b.id, b.title, b.roomId, b.userId,
        b.startTime, b.endTime, b.approvedBy, b.approvedAt, b.updatedAt)) =
      [bkToApprove].map (fun b => (b.id, b.title, b.roomId, b.userId,
        b.startTime, b.endTime, b.approvedBy, b.approvedAt, b.updatedAt))) ∧
    (∀ b ∈ applyApproveUpdate [bkToApprove] 3, b.id = 3 → b.status = BStatus.approved) ∧
    (∀ b ∈ applyApproveUpdate [bkToApprove] 3, b.id ≠ 3 → b ∈ [bkToApprove]) :=
  approve_sets_only_status [bkToApprove] 3

/-! ## C8 -/

def leaderRoles : List (Nat × Role) := [(5, Role.leader)]

/-- An approved upcoming booking owned by user 5. -/
def bkApprovedOwned : Booking :=
  { id := 9, title := ("A"), roomId := 1, userId := 5,
    startTime := 100, endTime := 200, status := BStatus.approved }

/-- C8 counterexample: the claim says a cancellation request on a
non-pending booking is rejected and no operation ever moves approved to
cancelled. But the cancel button is shown for an approved upcoming booking,
and when the caller holds the leader role the row-level-secured update
succeeds, transitioning the approved booking to cancelled. -/
theorem cancel_approved_succeeds_counterexample :
    showCancelButton bkApprovedOwned false = true ∧
    handleCancel leaderRoles 5 999 9 [bkApprovedOwned] =
      Except.ok [{ bkApprovedOwned with status := BStatus.cancelled, updatedAt := 999 }] :=
  ⟨rfl, rfl⟩

/-- C8 amended: for a caller without the leader or admin role, a
cancellation request on a booking that is not pending is a silent no-op (the
row-level USING clauses hide the row from the update); leaders and admins,
however, can cancel any booking, including approved or rejected ones. -/
theorem cancel_noop_for_staff_on_non_pending (roles : List (Nat × Role)) (caller : Nat)
    (now : Int) (i : Nat) (bs : List Booking)
    (hL : hasRole roles caller Role.leader = false)
    (hA : hasRole roles caller Role.admin = false)
    (hnp : ∀ b ∈ bs, b.id = i → b.status ≠ BStatus.pending) :
    handleCancel roles caller now i bs = Except.ok bs := by
  have hcan : ∀ b ∈ bs, ((b.id == i) && canUpdateRow roles caller b) = false := by
    intro b hb
    by_cases hid : (b.id == i) = true
    · have hst : (b.status == BStatus.pending) = false := by
        simpa using hnp b hb (by simpa using hid)
      simp [canUpdateRow, hL, hA, hid, hst]
    · have hid' : (b.id == i) = false := by simpa using hid
      simp [hid']
  unfold handleCancel rlsUpdate
  have hany : (bs.any fun b => (b.id == i) && canUpdateRow roles caller b &&
      !passesUpdateCheck roles caller { b with status := BStatus.cancelled, updatedAt := now }) =
      false := by
    rw [List.any_eq_false]
    intro b hb
    simp [hcan b hb]
  simp only [hany, Bool.false_eq_true, if_false]
  congr 1
  conv_rhs => rw [← List.map_id bs]
  apply List.map_congr_left
  intro b hb
  simp [hcan b hb]

/-- C8 amended, witness: a cancellation by a roleless caller of their own
approved booking leaves the store unchanged and reports no error. -/
theorem cancel_noop_for_staff_on_non_pending_witness :
    hasRole [] 5 Role.leader = false ∧ hasRole [] 5 Role.admin = false ∧
    (∀ b ∈ [bkApprovedOwned], b.id = 9 → b.status ≠ BStatus.pending) ∧
    handleCancel [] 5 999 9 [bkApprovedOwned] = Except.ok [bkApprovedOwned] :=
  ⟨rfl, rfl, by decide,
    cancel_noop_for_staff_on_non_pending [] 5 999 9 [bkApprovedOwned] rfl rfl (by decide)⟩

/-! ## C9 -/

/-- C9: when a store insert is rejected by the exclusion constraint, the
error carries the distinguishable conflict code 23P01 and `handleSubmit`
translates it into the "time slot no longer available" style toast
("Booking Conflict" / "This room is already booked for the selected
time..."), which differs from the toast produced for any non-conflict
failure (titled "Error"). -/
theorem conflict_error_translated (bs : List Booking) (b : Booking) (e : SqlError)
    (h : insertBooking b bs = Except.error e) (hc : e.code = ("23P01")) :
    bookingErrorToast e =
      (("Booking Conflict"),
       ("This room is already booked for the selected time. Please choose a different time or room.")) ∧
    (∀ e2 : SqlError, isConflictError (errorMsgOf e2) e2.code = false →
      (bookingErrorToast e2).1 = ("Error") ∧ (bookingErrorToast e2).1 ≠ (bookingErrorToast e).1) := by
  have he : e = exclusionViolation := by
    unfold insertBooking at h
    split at h
    · split at h
      · exact (Except.error.inj h).symm
      · cases h
    · rw [← Except.error.inj h] at hc
      exact absurd hc (by decide)
  subst he
  refine ⟨by decide, ?_⟩
  intro e2 h2
  have h2' : bookingErrorToast e2 = ((("Error")), errorMsgOf e2) := by
    unfold bookingErrorToast
    simp [h2]
  rw [h2']
  refine ⟨rfl, ?_⟩
  show ("Error") ≠ (bookingErrorToast exclusionViolation).1
  decide

/-- C9 witness: the translation applied to the concrete exclusion-violation
error produced by inserting the overlapping twin booking. -/
theorem conflict_error_translated_witness :
    (insertBooking twinPending [bkPending10to11] = Except.error exclusionViolation ∧
      exclusionViolation.code = ("23P01")) ∧
    bookingErrorToast exclusionViolation =
      (("Booking Conflict"),
       ("This room is already booked for the selected time. Please choose a different time or room.")) :=
  ⟨⟨rfl, rfl⟩,
    (conflict_error_translated [bkPending10to11] twinPending exclusionViolation rfl rfl).1⟩

end VineFlow
